import Mathlib

/-!
Shallow embedding of the events query slice of the API02 backend:

* the date-range filter builder of `buscarEventos` / `buscarEventosPorMes` /
  `buscarEventosPorAño` / `contarEventosPorMes` (month and year boundary
  instants computed through the JavaScript `Date` constructor, and the
  three-clause `$or` interval-overlap filter);
* the pure conflict check `verificarConflictoConEventos`;
* the query functions themselves, over an abstract MongoDB connector
  (`executeMongoOperation`) that can fail, together with an honest connector
  that runs `countDocuments` / `find` against an in-memory collection;
* the Express GET handler of `EventosRouter` (parameter validation, the
  404-on-empty and 200-on-results shaping, and the 500 error path).

Timestamps are modelled as `Int` values: milliseconds of local civil time
since the Unix epoch.  The local-to-UTC conversion applied by the JavaScript
runtime is a constant offset on every instant involved, so it is irrelevant
to every property stated here, and the model stays in local milliseconds
throughout.  Identifiers containing `ñ` in the source are written with `ni`
(for instance `año` becomes `anio`), since Lean identifiers cannot contain
that character.
-/

/-! ## Calendar model: the JavaScript `Date` collaborator -/

/-- Day number of the civil (proleptic Gregorian) date `y-m-d` counted from
1970-01-01, for `m ∈ [1,12]`.  Standard days-from-civil computation with
floor division (`/` and `%` on `Int` are Euclidean, which agrees with floor
division for the positive divisors used here). -/
def diasDesdeCivil (y m d : Int) : Int :=
  let y2 := if m ≤ 2 then y - 1 else y
  let era := y2 / 400
  let yoe := y2 % 400
  let mp := (m + 9) % 12
  let doy := (153 * mp + 2) / 5 + d - 1
  let doe := yoe * 365 + yoe / 4 - yoe / 100 + doy
  era * 146097 + doe - 719468

/-- Milliseconds since the epoch of the civil instant
`y-m-d h:mi:s.ms` (local time), for a calendar-valid date. -/
def msDeCivil (y m d h mi s ms : Int) : Int :=
  diasDesdeCivil y m d * 86400000 + h * 3600000 + mi * 60000 + s * 1000 + ms

/-- ECMAScript rule applied by the `new Date(year, ...)` constructor: an
integer year between 0 and 99 is interpreted as `1900 + year`. -/
def jsAnio (y : Int) : Int := if 0 ≤ y ∧ y ≤ 99 then 1900 + y else y

/-- Model of the JavaScript constructor
`new Date(year, monthIndex, day, h, mi, s, ms)` as a local-time epoch
instant in milliseconds: ECMAScript `MakeDay`/`MakeDate`, with the
two-digit-year rule, a 0-based month index normalised by floor
division/modulo, and day-of-month overflow or underflow (for instance
`day = 0`) carried into the day count. -/
def jsDateMs (year monthIndex day h mi s ms : Int) : Int :=
  let yr := jsAnio year
  let ym := yr + monthIndex / 12
  let mn := monthIndex % 12
  (diasDesdeCivil ym (mn + 1) 1 + (day - 1)) * 86400000
    + h * 3600000 + mi * 60000 + s * 1000 + ms

/-- Model of JavaScript `d.setHours(h, mi, s, ms)`: keep the local civil day
of the instant `t` and replace the time of day. -/
def jsSetHours (t h mi s ms : Int) : Int :=
  (t / 86400000) * 86400000 + h * 3600000 + mi * 60000 + s * 1000 + ms

/-- `inicioMes` from `buscarEventos` / `buscarEventosPorMes` /
`contarEventosPorMes`: `new Date(añoConsulta, mes - 1, 1)`. -/
def inicioMes (anioConsulta mes : Int) : Int :=
  jsDateMs anioConsulta (mes - 1) 1 0 0 0 0

/-- `finMes` from the same functions:
`new Date(añoConsulta, mes, 0)` followed by `setHours(23, 59, 59, 999)`. -/
def finMes (anioConsulta mes : Int) : Int :=
  jsSetHours (jsDateMs anioConsulta mes 0 0 0 0 0) 23 59 59 999

/-- `inicioAño` from `buscarEventosPorAño`: `new Date(año, 0, 1)`. -/
def inicioAnio (anio : Int) : Int := jsDateMs anio 0 1 0 0 0 0

/-- `finAño` from `buscarEventosPorAño`:
`new Date(año, 11, 31, 23, 59, 59, 999)`. -/
def finAnio (anio : Int) : Int := jsDateMs anio 11 31 23 59 59 999

/-- Follows the spec's words: Gregorian leap year. -/
def esBisiesto (y : Int) : Bool :=
  (y % 4 = 0 && y % 100 != 0) || y % 400 = 0

/-- Follows the spec's words: number of days of month `m` of year `y`,
with leap years handled. -/
def diasEnMes (y m : Int) : Int :=
  if m = 2 then (if esBisiesto y then 29 else 28)
  else if m = 4 ∨ m = 6 ∨ m = 9 ∨ m = 11 then 30 else 31

/-- Follows the spec's words: the first instant of month `m` of year `y`
(day 1, 00:00:00.000). -/
def primerInstanteMes (y m : Int) : Int := msDeCivil y m 1 0 0 0 0

/-- Follows the spec's words: the last instant of month `m` of year `y`
(last day, 23:59:59.999). -/
def ultimoInstanteMes (y m : Int) : Int :=
  msDeCivil y m (diasEnMes y m) 23 59 59 999

/-! ## The overlap filter and the conflict check -/

/-- The three-clause `$or` filter document built by `buscarEventos` (and,
identically, by `buscarEventosPorMes`, `buscarEventosPorAño`,
`buscarEventosPorRango` and `contarEventosPorMes`), applied to an event
with start `fechaInicio` and end `fechaConclusion` against the query range
`[rangoInicio, rangoFin]`: the event starts in the range, or ends in the
range, or spans the whole range. -/
def filtroTresClausulas (fechaInicio fechaConclusion rangoInicio rangoFin : Int) : Bool :=
  (decide (rangoInicio ≤ fechaInicio) && decide (fechaInicio ≤ rangoFin))
    || (decide (rangoInicio ≤ fechaConclusion) && decide (fechaConclusion ≤ rangoFin))
    || (decide (fechaInicio ≤ rangoInicio) && decide (fechaConclusion ≥ rangoFin))

/-- The two-clause overlap test used inside `verificarConflictoConEventos`:
`inicioEvento <= fechaFin && finEvento >= fechaInicio`. -/
def traslapeDosClausulas (fechaInicio fechaConclusion rangoInicio rangoFin : Int) : Bool :=
  decide (fechaInicio ≤ rangoFin) && decide (fechaConclusion ≥ rangoInicio)

/-- The event shape returned to callers (`T_Eventos`): exactly the four
fields `Id_Evento`, `Nombre`, `Fecha_Inicio`, `Fecha_Conclusion`. -/
structure T_Eventos where
  Id_Evento : String
  Nombre : String
  Fecha_Inicio : Int
  Fecha_Conclusion : Int
deriving DecidableEq, Repr

/-- A stored document of the `T_Eventos` collection: the MongoDB-generated
`_id` plus the native fields that the projections of the query functions
mention. -/
structure DocEvento where
  _id : Nat
  Id_Evento : String
  Nombre : String
  Fecha_Inicio : Int
  Fecha_Conclusion : Int
deriving DecidableEq, Repr

/-- The per-document transformation of `buscarEventos`: re-map the
database `_id` into the string-typed `Id_Evento` field and keep only
`Nombre`, `Fecha_Inicio`, `Fecha_Conclusion`. -/
def transformarEvento (d : DocEvento) : T_Eventos :=
  { Id_Evento := toString d._id
    Nombre := d.Nombre
    Fecha_Inicio := d.Fecha_Inicio
    Fecha_Conclusion := d.Fecha_Conclusion }

/-- The projection used by `buscarEventosPorMes` / `buscarEventosPorAño`:
the native fields without the MongoDB `_id`. -/
def proyectarEvento (d : DocEvento) : T_Eventos :=
  { Id_Evento := d.Id_Evento
    Nombre := d.Nombre
    Fecha_Inicio := d.Fecha_Inicio
    Fecha_Conclusion := d.Fecha_Conclusion }

/-- `verificarConflictoConEventos`: keep the events whose stored interval
overlaps the candidate interval `[fechaInicio, fechaFin]`.  The
`new Date(...)` wrappers of the source are the identity on instants. -/
def verificarConflictoConEventos (fechaInicio fechaFin : Int)
    (eventos : List T_Eventos) : List T_Eventos :=
  eventos.filter fun evento =>
    decide (evento.Fecha_Inicio ≤ fechaFin) && decide (evento.Fecha_Conclusion ≥ fechaInicio)

/-! ## The MongoDB collaborator -/

/-- The two privilege tiers passed to `executeMongoOperation`. -/
inductive RolSistema where
  | Responsable : RolSistema
  | Directivo : RolSistema
deriving DecidableEq, Repr

/-- A filter document over the `T_Eventos` collection: either the empty
document or the three-clause `$or` range filter. -/
inductive Filtro where
  | vacio : Filtro
  | rango (rangoInicio rangoFin : Int) : Filtro
deriving DecidableEq, Repr

/-- Whether a stored document matches a filter document. -/
def Filtro.coincide : Filtro → DocEvento → Bool
  | .vacio, _ => true
  | .rango a b, d => filtroTresClausulas d.Fecha_Inicio d.Fecha_Conclusion a b

/-- The options object of a `find` operation: the `Fecha_Inicio: 1` sort,
optional `skip` and `limit`, and whether the projection keeps `_id`. -/
structure OpcionesFind where
  sortFechaInicioAsc : Bool
  skip : Option Int
  limit : Option Int
  proyeccionConId : Bool
deriving DecidableEq, Repr

/-- The sort key relation `{ Fecha_Inicio: 1 }`. -/
def ordenFechaInicio (a b : DocEvento) : Prop := a.Fecha_Inicio ≤ b.Fecha_Inicio

instance : DecidableRel ordenFechaInicio :=
  fun a b => Int.decLe a.Fecha_Inicio b.Fecha_Inicio

instance : IsTotal DocEvento ordenFechaInicio :=
  ⟨fun a b => le_total a.Fecha_Inicio b.Fecha_Inicio⟩

instance : IsTrans DocEvento ordenFechaInicio :=
  ⟨fun _ _ _ h1 h2 => le_trans h1 h2⟩

/-- Stable sort by ascending `Fecha_Inicio`. -/
def ordenarPorFechaInicio (l : List DocEvento) : List DocEvento :=
  List.insertionSort ordenFechaInicio l

/-- MongoDB semantics of a `find` on an in-memory collection: filter, sort,
skip, limit. -/
def ejecutarFind (bd : List DocEvento) (filtro : Filtro) (opciones : OpcionesFind) :
    List DocEvento :=
  let coincidentes := bd.filter filtro.coincide
  let ordenados :=
    if opciones.sortFechaInicioAsc then ordenarPorFechaInicio coincidentes else coincidentes
  let saltados := match opciones.skip with
    | none => ordenados
    | some k => ordenados.drop k.toNat
  match opciones.limit with
  | none => saltados
  | some n => saltados.take n.toNat

/-- The `executeMongoOperation` collaborator, specialised to the two call
shapes the query functions use.  Either operation may fail with an error of
type `ε`, and a successful result may be `null` (`none`). -/
structure ConectorMongo (ε : Type) where
  countDocuments : Filtro → RolSistema → Except ε (Option Int)
  find : Filtro → OpcionesFind → RolSistema → Except ε (Option (List DocEvento))

/-- The honest connector over an in-memory collection `bd`: never fails,
never returns `null`, and implements the MongoDB count/find semantics. -/
def conectorDeBase (ε : Type) (bd : List DocEvento) : ConectorMongo ε :=
  { countDocuments := fun filtro _ => .ok (some ((bd.filter filtro.coincide).length : Int))
    find := fun filtro opciones _ => .ok (some (ejecutarFind bd filtro opciones)) }

/-! ## The query functions -/

/-- `BuscarEventosParams`. -/
structure BuscarEventosParams where
  mes : Option Int
  anio : Option Int
  limit : Int
  offset : Int
deriving DecidableEq, Repr

/-- The result shape of the unified search. -/
structure ResultadoBusqueda where
  eventos : List T_Eventos
  total : Int
deriving DecidableEq, Repr

/-- `año || new Date().getFullYear()`: the year actually queried, given the
optional `año` parameter and the current year (`0` is falsy in
JavaScript, so it also falls back to the current year). -/
def anioConsultaDe (anio : Option Int) (anioActual : Int) : Int :=
  match anio with
  | none => anioActual
  | some a => if a = 0 then anioActual else a

/-- `filtroComun` from `buscarEventos`: the empty document when no month is
given, and the three-clause month-range filter otherwise. -/
def filtroComun (params : BuscarEventosParams) (anioActual : Int) : Filtro :=
  match params.mes with
  | none => .vacio
  | some mes =>
    let anioConsulta := anioConsultaDe params.anio anioActual
    .rango (inicioMes anioConsulta mes) (finMes anioConsulta mes)

/-- The options of the `find` issued by `buscarEventos`: sort by
`Fecha_Inicio` ascending, skip `offset`, limit `limit`, projection with
`_id`. -/
def opcionesBuscarEventos (params : BuscarEventosParams) : OpcionesFind :=
  { sortFechaInicioAsc := true
    skip := some params.offset
    limit := some params.limit
    proyeccionConId := true }

/-- `buscarEventos`: count with `filtroComun`, find with the same filter and
the pagination window, default `null` results (`eventosRaw || []`,
`total || 0`), transform `_id` into `Id_Evento`.  The `try/catch` of the
source logs and re-throws the same error, which is the identity on the
propagated `Except` error. -/
def buscarEventos (ε : Type) (conn : ConectorMongo ε) (params : BuscarEventosParams)
    (anioActual : Int) : Except ε ResultadoBusqueda :=
  let filtro := filtroComun params anioActual
  match conn.countDocuments filtro RolSistema.Responsable with
  | .error e => .error e
  | .ok total =>
    match conn.find filtro (opcionesBuscarEventos params) RolSistema.Responsable with
    | .error e => .error e
    | .ok eventosRaw =>
      .ok { eventos := (eventosRaw.getD []).map transformarEvento
            total := total.getD 0 }

/-- `buscarEventosPorMes`: same month filter and pagination, but with the
`Id_Evento` projection (no `_id` re-mapping) and the `eventos || []`,
`total || 0` defaults. -/
def buscarEventosPorMes (ε : Type) (conn : ConectorMongo ε) (mes : Int) (anio : Option Int)
    (anioActual limit offset : Int) : Except ε ResultadoBusqueda :=
  let anioConsulta := anioConsultaDe anio anioActual
  let filtro := Filtro.rango (inicioMes anioConsulta mes) (finMes anioConsulta mes)
  match conn.countDocuments filtro RolSistema.Responsable with
  | .error e => .error e
  | .ok total =>
    match conn.find filtro
        { sortFechaInicioAsc := true, skip := some offset, limit := some limit
          proyeccionConId := false } RolSistema.Responsable with
    | .error e => .error e
    | .ok eventos =>
      .ok { eventos := (eventos.getD []).map proyectarEvento
            total := total.getD 0 }

/-- `buscarEventosPorAño`: the year-range filter, unpaginated, gated to the
`Directivo` role, with the `eventos || []` default. -/
def buscarEventosPorAnio (ε : Type) (conn : ConectorMongo ε) (anio : Int) :
    Except ε (List T_Eventos) :=
  match conn.find (Filtro.rango (inicioAnio anio) (finAnio anio))
      { sortFechaInicioAsc := true, skip := none, limit := none
        proyeccionConId := false } RolSistema.Directivo with
  | .error e => .error e
  | .ok eventos => .ok ((eventos.getD []).map proyectarEvento)

/-- `contarEventosPorMes`: count with the month filter and the `count || 0`
default. -/
def contarEventosPorMes (ε : Type) (conn : ConectorMongo ε) (mes : Int) (anio : Option Int)
    (anioActual : Int) : Except ε Int :=
  let anioConsulta := anioConsultaDe anio anioActual
  match conn.countDocuments
      (Filtro.rango (inicioMes anioConsulta mes) (finMes anioConsulta mes))
      RolSistema.Responsable with
  | .error e => .error e
  | .ok count => .ok (count.getD 0)

/-! ## The HTTP endpoint -/

/-- The value of `Number(param)` for a present query parameter: `none`
models `NaN`. -/
abbrev JSNum := Option Int

/-- The parsed query of a GET request to the events endpoint.  An outer
`none` models an absent (or falsy-empty) parameter, `some none` a present
parameter whose `Number(...)` is `NaN`, and `some (some n)` a numeric
value. -/
structure ConsultaEventos where
  Mes : Option JSNum
  Anio : Option JSNum
  Limit : Option JSNum
  Offset : Option JSNum
deriving DecidableEq, Repr

/-- The error-type tags the handler uses. -/
inductive TipoError where
  | INVALID_PARAMETERS : TipoError
  | UNKNOWN_ERROR : TipoError
deriving DecidableEq, Repr

/-- A JSON response of the handler: `error` carries `success: false` with an
`errorType` and optional `details`; `exito` carries `success: true` with
`data` and `total` (used for both the 200 and the 404-with-empty-list
responses). -/
inductive RespuestaEventos (ε : Type) where
  | error (status : Int) (message : String) (errorType : TipoError) (details : Option ε)
  | exito (status : Int) (message : String) (data : List T_Eventos) (total : Int)
deriving DecidableEq, Repr

/-- The `success` field of the response body. -/
def RespuestaEventos.success {ε : Type} : RespuestaEventos ε → Bool
  | .error _ _ _ _ => false
  | .exito _ _ _ _ => true

/-- The HTTP status of the response. -/
def RespuestaEventos.status {ε : Type} : RespuestaEventos ε → Int
  | .error s _ _ _ => s
  | .exito s _ _ _ => s

/-- The `errorType` field of the response body, when present. -/
def RespuestaEventos.errorTypeOf {ε : Type} : RespuestaEventos ε → Option TipoError
  | .error _ _ t _ => some t
  | .exito _ _ _ _ => none

/-- The `data` field of a success-shaped response body. -/
def RespuestaEventos.dataOf {ε : Type} : RespuestaEventos ε → Option (List T_Eventos)
  | .error _ _ _ _ => none
  | .exito _ _ d _ => some d

/-- The `total` field of a success-shaped response body. -/
def RespuestaEventos.totalOf {ε : Type} : RespuestaEventos ε → Option Int
  | .error _ _ _ _ => none
  | .exito _ _ _ t => some t

/-- `MAXIMA_CANTIDAD_EVENTOS`. -/
def MAXIMA_CANTIDAD_EVENTOS : Int := 100

/-- `isNaN(limit) || limit < 1 || limit > MAXIMA_CANTIDAD_EVENTOS`. -/
def limitInvalido (limit : JSNum) : Bool :=
  match limit with
  | none => true
  | some n => decide (n < 1) || decide (MAXIMA_CANTIDAD_EVENTOS < n)

/-- `isNaN(offset) || offset < 0`. -/
def offsetInvalido (offset : JSNum) : Bool :=
  match offset with
  | none => true
  | some n => decide (n < 0)

/-- `mes !== undefined && (isNaN(mes) || mes < 1 || mes > 12)`. -/
def mesInvalido : Option JSNum → Bool
  | none => false
  | some none => true
  | some (some m) => decide (m < 1) || decide (12 < m)

/-- `año !== undefined && (isNaN(año) || año < 1900 || año > 2100)`. -/
def anioInvalido : Option JSNum → Bool
  | none => false
  | some none => true
  | some (some a) => decide (a < 1900) || decide (2100 < a)

/-- The message of the 404 response: month-aware when a month was given
(`año` is interpolated only when truthy). -/
def mensajeNoEncontrado (mes anio : Option Int) : String :=
  match mes with
  | some m =>
    "No se encontraron eventos para el mes " ++ toString m ++
      (match anio with
       | some a => if a = 0 then "" else " del año " ++ toString a
       | none => "")
  | none => "No se encontraron eventos en el sistema"

/-- The message of the 200 response. -/
def mensajeEncontrado (n : Nat) (total : Int) (mes anio : Option Int) : String :=
  match mes with
  | some m =>
    "Se encontraron " ++ toString n ++ " evento(s) de " ++ toString total ++
      " totales para el mes " ++ toString m ++
      (match anio with
       | some a => if a = 0 then "" else " del año " ++ toString a
       | none => "")
  | none =>
    "Se encontraron " ++ toString n ++ " evento(s) de " ++ toString total ++
      " totales (eventos más antiguos)"

/-- The parameter parsing of the handler: `Limit ? Number(Limit) :
MAXIMA_CANTIDAD_EVENTOS`, `Offset ? Number(Offset) : 0`, and the optional
`mes` / `año`.  On the path that reaches `buscarEventos`, validation has
already ruled out `NaN`, so the `getD 0` defaults are never exercised
there. -/
def paramsDesdeConsulta (consulta : ConsultaEventos) : BuscarEventosParams :=
  { mes := consulta.Mes.getD none
    anio := consulta.Anio.getD none
    limit := (consulta.Limit.getD (some MAXIMA_CANTIDAD_EVENTOS)).getD 0
    offset := (consulta.Offset.getD (some 0)).getD 0 }

/-- The GET handler of `EventosRouter`: validate `limit`, `offset`, `mes`,
`año` in that order (each violation is a 400 with
`errorType: INVALID_PARAMETERS` issued before any database operation), run
the unified search, answer 404-with-empty-list when it finds nothing, 200
with the page and the total otherwise, and 500 with
`errorType: UNKNOWN_ERROR` and the raw error as `details` when the search
throws. -/
def eventosGetHandler (ε : Type) (conn : ConectorMongo ε) (consulta : ConsultaEventos)
    (anioActual : Int) : RespuestaEventos ε :=
  let limit : JSNum := consulta.Limit.getD (some MAXIMA_CANTIDAD_EVENTOS)
  let offset : JSNum := consulta.Offset.getD (some 0)
  if limitInvalido limit then
    .error 400 ("El límite debe ser un número entre 1 y " ++ toString MAXIMA_CANTIDAD_EVENTOS)
      TipoError.INVALID_PARAMETERS none
  else if offsetInvalido offset then
    .error 400 "El offset debe ser un número mayor o igual a 0"
      TipoError.INVALID_PARAMETERS none
  else if mesInvalido consulta.Mes then
    .error 400 "El mes debe ser un número entre 1 y 12"
      TipoError.INVALID_PARAMETERS none
  else if anioInvalido consulta.Anio then
    .error 400 "El año debe ser un número válido entre 1900 y 2100"
      TipoError.INVALID_PARAMETERS none
  else
    let params := paramsDesdeConsulta consulta
    match buscarEventos ε conn params anioActual with
    | .error e =>
      .error 500 "Error interno del servidor al buscar eventos"
        TipoError.UNKNOWN_ERROR (some e)
    | .ok r =>
      if r.eventos.length = 0 then
        .exito 404 (mensajeNoEncontrado params.mes params.anio) [] 0
      else
        .exito 200 (mensajeEncontrado r.eventos.length r.total params.mes params.anio)
          r.eventos r.total


/-! ## Concrete fixtures used by the witnesses -/

/-- A concrete stored document with start `i` and end `i + 1`. -/
def docEjemplo (i : Nat) : DocEvento :=
  { _id := i, Id_Evento := toString i, Nombre := "Evento"
    Fecha_Inicio := (i : Int), Fecha_Conclusion := (i : Int) + 1 }

/-- A collection of 35 stored events. -/
def bd35 : List DocEvento := (List.range 35).map docEjemplo

/-- A search with no month filter, `limit = 10`, `offset = 20`. -/
def params35 : BuscarEventosParams := { mes := none, anio := none, limit := 10, offset := 20 }

/-- The result of running `params35` against `bd35`. -/
def res35 : ResultadoBusqueda :=
  { eventos := (((ordenarPorFechaInicio (bd35.filter
        (filtroComun params35 0).coincide)).drop params35.offset.toNat).take
        params35.limit.toNat).map transformarEvento
    total := ((bd35.filter (filtroComun params35 0).coincide).length : Int) }

/-- A request with no query parameters. -/
def consultaVacia : ConsultaEventos := { Mes := none, Anio := none, Limit := none, Offset := none }

/-- A request with `Mes=13`, out of range. -/
def consulta13 : ConsultaEventos := { Mes := some (some 13), Anio := none, Limit := none, Offset := none }

/-- A connector whose every operation throws. -/
def connFalla : ConectorMongo String :=
  { countDocuments := fun _ _ => .error "fallo de conexion"
    find := fun _ _ _ => .error "fallo de conexion" }

/-- A connector whose every operation succeeds with a `null` result. -/
def conectorNulo : ConectorMongo Unit :=
  { countDocuments := fun _ _ => .ok none
    find := fun _ _ _ => .ok none }

/-! ## Theorems -/

/-- C1: for a query range with `rangoInicio ≤ rangoFin` and an event with
`Fecha_Inicio ≤ Fecha_Conclusion`, the three-clause disjunctive filter of
`buscarEventos` holds exactly when the event's interval intersects the
range, i.e. it equals the two-clause test
`Fecha_Inicio ≤ rangoFin ∧ Fecha_Conclusion ≥ rangoInicio` used by
`verificarConflictoConEventos`; events entirely before or after the range
never match, events touching a boundary instant match, and an event fully
contained in the range matches. -/
theorem filtro_tres_clausulas_equivale_traslape (s e rs re : Int)
    (hse : s ≤ e) (hr : rs ≤ re) :
    filtroTresClausulas s e rs re = traslapeDosClausulas s e rs re ∧
    (e < rs → filtroTresClausulas s e rs re = false) ∧
    (re < s → filtroTresClausulas s e rs re = false) ∧
    (e = rs → filtroTresClausulas s e rs re = true) ∧
    (s = re → filtroTresClausulas s e rs re = true) ∧
    (rs ≤ s → e ≤ re → filtroTresClausulas s e rs re = true) := by
  refine ⟨?_, ?_, ?_, ?_, ?_, ?_⟩
  · apply Bool.coe_iff_coe.mp
    simp only [filtroTresClausulas, traslapeDosClausulas, Bool.or_eq_true, Bool.and_eq_true,
      decide_eq_true_eq, ge_iff_le]
    omega
  · intro h1
    rw [← Bool.not_eq_true]
    simp only [filtroTresClausulas, Bool.or_eq_true, Bool.and_eq_true,
      decide_eq_true_eq, ge_iff_le]
    omega
  · intro h1
    rw [← Bool.not_eq_true]
    simp only [filtroTresClausulas, Bool.or_eq_true, Bool.and_eq_true,
      decide_eq_true_eq, ge_iff_le]
    omega
  · intro h1
    simp only [filtroTresClausulas, Bool.or_eq_true, Bool.and_eq_true,
      decide_eq_true_eq, ge_iff_le]
    omega
  · intro h1
    simp only [filtroTresClausulas, Bool.or_eq_true, Bool.and_eq_true,
      decide_eq_true_eq, ge_iff_le]
    omega
  · intro h1 h2
    simp only [filtroTresClausulas, Bool.or_eq_true, Bool.and_eq_true,
      decide_eq_true_eq, ge_iff_le]
    omega

/-- C1 witness: the equivalence instantiated at the stored event `[5, 7]`
and the query range `[0, 6]`. -/
theorem filtro_tres_clausulas_equivale_traslape_witness :
    ((5 : Int) ≤ 7 ∧ (0 : Int) ≤ 6) ∧
    (filtroTresClausulas 5 7 0 6 = traslapeDosClausulas 5 7 0 6 ∧
      ((7 : Int) < 0 → filtroTresClausulas 5 7 0 6 = false) ∧
      ((6 : Int) < 5 → filtroTresClausulas 5 7 0 6 = false) ∧
      ((7 : Int) = 0 → filtroTresClausulas 5 7 0 6 = true) ∧
      ((5 : Int) = 6 → filtroTresClausulas 5 7 0 6 = true) ∧
      ((0 : Int) ≤ 5 → (7 : Int) ≤ 6 → filtroTresClausulas 5 7 0 6 = true)) :=
  ⟨by decide, filtro_tres_clausulas_equivale_traslape 5 7 0 6 (by decide) (by decide)⟩

/-- C3: `verificarConflictoConEventos` returns exactly the events whose
stored interval satisfies the inclusive two-clause overlap test against the
candidate interval, in their original order, without touching anything
else; in particular, for the candidate `[600, 720]` (10:00 to 12:00 in
minutes), a stored event `[660, 780]` conflicts, a touching stored event
`[720, 780]` conflicts, and a stored event `[780, 840]` does not. -/
theorem verificar_conflicto_caracterizacion (fechaInicio fechaFin : Int)
    (eventos : List T_Eventos) :
    (∀ evento, evento ∈ verificarConflictoConEventos fechaInicio fechaFin eventos ↔
      (evento ∈ eventos ∧ evento.Fecha_Inicio ≤ fechaFin ∧
        evento.Fecha_Conclusion ≥ fechaInicio)) ∧
    List.Sublist (verificarConflictoConEventos fechaInicio fechaFin eventos) eventos ∧
    verificarConflictoConEventos 600 720
        [⟨"1", "a", 660, 780⟩, ⟨"2", "b", 720, 780⟩, ⟨"3", "c", 780, 840⟩] =
      [⟨"1", "a", 660, 780⟩, ⟨"2", "b", 720, 780⟩] := by
  refine ⟨?_, ?_, ?_⟩
  · intro evento
    simp only [verificarConflictoConEventos, List.mem_filter, Bool.and_eq_true,
      decide_eq_true_eq, ge_iff_le, and_assoc]
  · exact List.filter_sublist eventos
  · rfl

/-- The two-digit-year rule does not fire for years outside `[0, 99]`. -/
theorem jsAnio_fuera_de_rango (y : Int) (hy : y < 0 ∨ 100 ≤ y) : jsAnio y = y := by
  simp only [jsAnio]
  rw [if_neg]
  omega

/-- The start-of-month boundary computed by the code equals the first
instant of the month, for years outside `[0, 99]`. -/
theorem inicioMes_correcto (m y : Int) (hm1 : 1 ≤ m) (hm2 : m ≤ 12)
    (hy : y < 0 ∨ 100 ≤ y) : inicioMes y m = primerInstanteMes y m := by
  have hj := jsAnio_fuera_de_rango y hy
  interval_cases m <;>
  · simp only [inicioMes, jsDateMs, hj, primerInstanteMes, msDeCivil, diasDesdeCivil]
    norm_num

/-- The end-of-month boundary computed by the code (`new Date(año, mes, 0)`
then `setHours(23, 59, 59, 999)`) equals the last instant of the month,
for years outside `[0, 99]`. -/
theorem finMes_correcto (m y : Int) (hm1 : 1 ≤ m) (hm2 : m ≤ 12)
    (hy : y < 0 ∨ 100 ≤ y) : finMes y m = ultimoInstanteMes y m := by
  have hj := jsAnio_fuera_de_rango y hy
  interval_cases m <;>
  · simp only [finMes, jsSetHours, jsDateMs, hj, ultimoInstanteMes, msDeCivil,
      diasDesdeCivil, diasEnMes, esBisiesto]
    norm_num
    omega

/-- The start-of-year boundary of `buscarEventosPorAño` equals the first
instant of January, for years outside `[0, 99]`. -/
theorem inicioAnio_correcto (y : Int) (hy : y < 0 ∨ 100 ≤ y) :
    inicioAnio y = primerInstanteMes y 1 := by
  have hj := jsAnio_fuera_de_rango y hy
  simp only [inicioAnio, jsDateMs, hj, primerInstanteMes, msDeCivil, diasDesdeCivil]
  norm_num

/-- The end-of-year boundary of `buscarEventosPorAño` equals the last
instant of December, for years outside `[0, 99]`. -/
theorem finAnio_correcto (y : Int) (hy : y < 0 ∨ 100 ≤ y) :
    finAnio y = ultimoInstanteMes y 12 := by
  have hj := jsAnio_fuera_de_rango y hy
  simp only [finAnio, jsDateMs, hj, ultimoInstanteMes, msDeCivil, diasDesdeCivil,
    diasEnMes, esBisiesto]
  norm_num
  omega

/-- C2 counterexample: the claim quantifies over every year, but at
`mes = 2`, `año = 50` the derived month start is the first instant of
February 1950, not of February of year 50 — the JavaScript `Date`
constructor interprets integer years 0 through 99 as `1900 + año`. -/
theorem limites_mes_contraejemplo :
    inicioMes 50 2 ≠ primerInstanteMes 50 2 ∧
    inicioMes 50 2 = primerInstanteMes 1950 2 := by
  decide

/-- C2 (amended to years outside `[0, 99]`, which covers the endpoint's
validated range `[1900, 2100]`): for every month in `[1, 12]` the derived
query boundary pair is exactly the first instant of the month (day 1,
00:00:00.000) and the last instant of the month (last day, 23:59:59.999),
leap years handled, and the year search uses exactly the first instant of
January and the last instant of December. -/
theorem limites_mes_y_anio (m y : Int) (hm1 : 1 ≤ m) (hm2 : m ≤ 12)
    (hy : y < 0 ∨ 100 ≤ y) :
    inicioMes y m = primerInstanteMes y m ∧
    finMes y m = ultimoInstanteMes y m ∧
    inicioAnio y = primerInstanteMes y 1 ∧
    finAnio y = ultimoInstanteMes y 12 :=
  ⟨inicioMes_correcto m y hm1 hm2 hy, finMes_correcto m y hm1 hm2 hy,
   inicioAnio_correcto y hy, finAnio_correcto y hy⟩

/-- C2 witness: the boundaries instantiated at February 2024, a leap year:
Feb 1 2024 00:00:00.000 through Feb 29 2024 23:59:59.999 (in local epoch
milliseconds). -/
theorem limites_mes_y_anio_witness :
    ((1 : Int) ≤ 2 ∧ (2 : Int) ≤ 12 ∧ ((2024 : Int) < 0 ∨ (100 : Int) ≤ 2024)) ∧
    (inicioMes 2024 2 = primerInstanteMes 2024 2 ∧
      finMes 2024 2 = ultimoInstanteMes 2024 2 ∧
      inicioAnio 2024 = primerInstanteMes 2024 1 ∧
      finAnio 2024 = ultimoInstanteMes 2024 12) ∧
    inicioMes 2024 2 = 1706745600000 ∧
    finMes 2024 2 = 1709251199999 :=
  ⟨by norm_num,
   limites_mes_y_anio 2 2024 (by norm_num) (by norm_num) (by norm_num),
   by decide, by decide⟩

/-- Running `buscarEventos` against the honest in-memory connector yields
exactly the paginated window of the sorted matching set together with the
unrestricted matching count. -/
theorem buscarEventos_base_eq (ε : Type) (bd : List DocEvento)
    (params : BuscarEventosParams) (anioActual : Int) :
    buscarEventos ε (conectorDeBase ε bd) params anioActual =
      Except.ok
        { eventos := (((ordenarPorFechaInicio (bd.filter
              (filtroComun params anioActual).coincide)).drop params.offset.toNat).take
              params.limit.toNat).map transformarEvento
          total := ((bd.filter (filtroComun params anioActual).coincide).length : Int) } :=
  rfl

/-- C6: against a stored collection, the unified search counts and finds
with the same filter; the returned page is sorted by `Fecha_Inicio`
ascending, skips `offset` records and holds at most `limit` records —
element `i` of the page is element `offset + i` of the sorted matching
set — while `total` is the unrestricted count of the matching set (so
`total` may exceed the page size); with 35 matching events, `limit = 10`
and `offset = 20` this gives exactly records 21 through 30 in sort order
and `total = 35` (see the witness). -/
theorem busqueda_unificada_paginacion (ε : Type) (bd : List DocEvento)
    (params : BuscarEventosParams) (anioActual : Int) (r : ResultadoBusqueda)
    (h : buscarEventos ε (conectorDeBase ε bd) params anioActual = Except.ok r) :
    r.total = ((bd.filter (filtroComun params anioActual).coincide).length : Int) ∧
    r.eventos = (((ordenarPorFechaInicio (bd.filter
        (filtroComun params anioActual).coincide)).drop params.offset.toNat).take
        params.limit.toNat).map transformarEvento ∧
    List.Sorted (fun a b : T_Eventos => a.Fecha_Inicio ≤ b.Fecha_Inicio) r.eventos ∧
    r.eventos.length = min params.limit.toNat
      ((bd.filter (filtroComun params anioActual).coincide).length - params.offset.toNat) ∧
    ∀ i : Nat, i < r.eventos.length →
      r.eventos[i]? =
        ((ordenarPorFechaInicio (bd.filter
          (filtroComun params anioActual).coincide))[params.offset.toNat + i]?).map
          transformarEvento := by
  rw [buscarEventos_base_eq] at h
  injection h with h2
  subst h2
  refine ⟨rfl, rfl, ?_, ?_, ?_⟩
  · have hs : List.Sorted ordenFechaInicio
        (ordenarPorFechaInicio (bd.filter (filtroComun params anioActual).coincide)) :=
      List.sorted_insertionSort ordenFechaInicio _
    have hsub : List.Sublist
        (((ordenarPorFechaInicio (bd.filter (filtroComun params anioActual).coincide)).drop
          params.offset.toNat).take params.limit.toNat)
        (ordenarPorFechaInicio (bd.filter (filtroComun params anioActual).coincide)) :=
      (List.take_sublist _ _).trans (List.drop_sublist _ _)
    have hw := hs.sublist hsub
    exact List.pairwise_map.mpr hw
  · simp only [List.length_map, List.length_take, List.length_drop,
      ordenarPorFechaInicio, List.length_insertionSort]
  · intro i hi
    simp only [List.length_map, List.length_take, List.length_drop] at hi
    rw [List.getElem?_map, List.getElem?_take, if_pos (by omega), List.getElem?_drop]

/-- C6 witness: on the 35-event collection `bd35` with `limit = 10`,
`offset = 20`, the page has exactly the 10 events numbered 20 through 29
in sort order (records 21 through 30, 1-indexed) and `total = 35`. -/
theorem busqueda_unificada_paginacion_witness :
    buscarEventos Unit (conectorDeBase Unit bd35) params35 0 = Except.ok res35 ∧
    res35.total = 35 ∧
    res35.eventos.length = 10 ∧
    res35.eventos[0]? = some (transformarEvento (docEjemplo 20)) ∧
    res35.eventos[9]? = some (transformarEvento (docEjemplo 29)) := by
  have h := busqueda_unificada_paginacion Unit bd35 params35 0 res35 (by rfl)
  refine ⟨by rfl, ?_, ?_, ?_, ?_⟩
  · rw [h.1]; decide
  · rw [h.2.2.2.1]; decide
  · rw [h.2.2.2.2 0 (by decide)]; decide
  · rw [h.2.2.2.2 9 (by decide)]; decide

/-- C7: when no month is given the unified search applies the empty filter
document, every stored event matches it, and the result is the whole
collection subject only to the sort and the pagination window, with
`total` the size of the whole collection. -/
theorem sin_mes_todos_coinciden (ε : Type) (bd : List DocEvento)
    (params : BuscarEventosParams) (anioActual : Int) (r : ResultadoBusqueda)
    (hmes : params.mes = none)
    (h : buscarEventos ε (conectorDeBase ε bd) params anioActual = Except.ok r) :
    filtroComun params anioActual = Filtro.vacio ∧
    (∀ d : DocEvento, (filtroComun params anioActual).coincide d = true) ∧
    r.total = (bd.length : Int) ∧
    r.eventos = (((ordenarPorFechaInicio bd).drop params.offset.toNat).take
        params.limit.toNat).map transformarEvento := by
  have hf : filtroComun params anioActual = Filtro.vacio := by
    simp only [filtroComun, hmes]
  have hfilter : bd.filter (filtroComun params anioActual).coincide = bd := by
    rw [hf]
    have hc : Filtro.coincide Filtro.vacio = fun _ : DocEvento => true := rfl
    rw [hc, List.filter_true]
  rw [buscarEventos_base_eq] at h
  injection h with h2
  subst h2
  refine ⟨hf, ?_, ?_, ?_⟩
  · intro d
    rw [hf]
    rfl
  · rw [hfilter]
  · rw [hfilter]

/-- C7 witness: the no-month search over `bd35` has the empty filter and
`total = 35`, the size of the whole collection. -/
theorem sin_mes_todos_coinciden_witness :
    (params35.mes = none ∧
      buscarEventos Unit (conectorDeBase Unit bd35) params35 0 = Except.ok res35) ∧
    (filtroComun params35 0 = Filtro.vacio ∧
      res35.total = (bd35.length : Int) ∧
      res35.eventos = (((ordenarPorFechaInicio bd35).drop params35.offset.toNat).take
          params35.limit.toNat).map transformarEvento) := by
  have h := sin_mes_todos_coinciden Unit bd35 params35 0 res35 rfl (by rfl)
  exact ⟨⟨rfl, by rfl⟩, h.1, h.2.2.1, h.2.2.2⟩

/-- C9: a year given without a month has no effect — the filter and the
whole search result are identical to a call with both parameters absent,
and (for a year passing the endpoint's validation) the whole HTTP response
is identical to a request without the year parameter. -/
theorem anio_sin_mes_sin_efecto (ε : Type) (conn : ConectorMongo ε)
    (y limit offset anioActual : Int) (L O : Option JSNum)
    (hy1 : 1900 ≤ y) (hy2 : y ≤ 2100) :
    filtroComun { mes := none, anio := some y, limit := limit, offset := offset } anioActual =
      filtroComun { mes := none, anio := none, limit := limit, offset := offset } anioActual ∧
    buscarEventos ε conn { mes := none, anio := some y, limit := limit, offset := offset }
        anioActual =
      buscarEventos ε conn { mes := none, anio := none, limit := limit, offset := offset }
        anioActual ∧
    eventosGetHandler ε conn { Mes := none, Anio := some (some y), Limit := L, Offset := O }
        anioActual =
      eventosGetHandler ε conn { Mes := none, Anio := none, Limit := L, Offset := O }
        anioActual := by
  refine ⟨rfl, rfl, ?_⟩
  have ha : anioInvalido (some (some y)) = false := by
    simp only [anioInvalido, Bool.or_eq_false_iff, decide_eq_false_iff_not]
    omega
  simp only [eventosGetHandler]
  rw [ha]
  rfl

/-- C9 witness: with year 2024 and no month, the search over `bd35` and the
full HTTP exchange coincide with the year-free ones. -/
theorem anio_sin_mes_sin_efecto_witness :
    ((1900 : Int) ≤ 2024 ∧ (2024 : Int) ≤ 2100) ∧
    buscarEventos Unit (conectorDeBase Unit bd35)
        { mes := none, anio := some 2024, limit := 10, offset := 20 } 0 =
      buscarEventos Unit (conectorDeBase Unit bd35)
        { mes := none, anio := none, limit := 10, offset := 20 } 0 ∧
    eventosGetHandler Unit (conectorDeBase Unit bd35)
        { Mes := none, Anio := some (some 2024), Limit := none, Offset := none } 0 =
      eventosGetHandler Unit (conectorDeBase Unit bd35)
        { Mes := none, Anio := none, Limit := none, Offset := none } 0 := by
  have h := anio_sin_mes_sin_efecto Unit (conectorDeBase Unit bd35) 2024 10 20 0 none none
    (by norm_num) (by norm_num)
  exact ⟨⟨by norm_num, by norm_num⟩, h.2.1, h.2.2⟩

/-- Whenever one of the four validators fires, the handler answers the 400
validation error without consulting the connector or the clock. -/
theorem handler_400_de_validacion (ε : Type) (conn conn2 : ConectorMongo ε)
    (consulta : ConsultaEventos) (anioActual anioActual2 : Int)
    (h : limitInvalido (consulta.Limit.getD (some MAXIMA_CANTIDAD_EVENTOS)) = true ∨
         offsetInvalido (consulta.Offset.getD (some 0)) = true ∨
         mesInvalido consulta.Mes = true ∨
         anioInvalido consulta.Anio = true) :
    (eventosGetHandler ε conn consulta anioActual).status = 400 ∧
    (eventosGetHandler ε conn consulta anioActual).success = false ∧
    (eventosGetHandler ε conn consulta anioActual).errorTypeOf =
      some TipoError.INVALID_PARAMETERS ∧
    eventosGetHandler ε conn consulta anioActual =
      eventosGetHandler ε conn2 consulta anioActual2 := by
  by_cases h1 : limitInvalido (consulta.Limit.getD (some MAXIMA_CANTIDAD_EVENTOS)) = true
  · simp [eventosGetHandler, h1, RespuestaEventos.status, RespuestaEventos.success,
      RespuestaEventos.errorTypeOf]
  · by_cases h2 : offsetInvalido (consulta.Offset.getD (some 0)) = true
    · simp [eventosGetHandler, h1, h2, RespuestaEventos.status, RespuestaEventos.success,
        RespuestaEventos.errorTypeOf]
    · by_cases h3 : mesInvalido consulta.Mes = true
      · simp [eventosGetHandler, h1, h2, h3, RespuestaEventos.status,
          RespuestaEventos.success, RespuestaEventos.errorTypeOf]
      · have h4 : anioInvalido consulta.Anio = true := by tauto
        simp [eventosGetHandler, h1, h2, h3, h4, RespuestaEventos.status,
          RespuestaEventos.success, RespuestaEventos.errorTypeOf]

/-- C4: a query parameter outside its numeric range — `limit` outside
`[1, 100]`, `offset < 0`, `mes` outside `[1, 12]` or `año` outside
`[1900, 2100]` — makes the handler answer 400 with
`errorType: INVALID_PARAMETERS` and `success: false`, and the response is
the same for every connector and clock, i.e. it is produced before any
database query is issued. -/
theorem validacion_parametros_400 (ε : Type) (conn conn2 : ConectorMongo ε)
    (consulta : ConsultaEventos) (anioActual anioActual2 : Int)
    (h : (∃ l : Int, consulta.Limit = some (some l) ∧ (l < 1 ∨ 100 < l)) ∨
         (∃ o : Int, consulta.Offset = some (some o) ∧ o < 0) ∨
         (∃ m : Int, consulta.Mes = some (some m) ∧ (m < 1 ∨ 12 < m)) ∨
         (∃ a : Int, consulta.Anio = some (some a) ∧ (a < 1900 ∨ 2100 < a))) :
    (eventosGetHandler ε conn consulta anioActual).status = 400 ∧
    (eventosGetHandler ε conn consulta anioActual).success = false ∧
    (eventosGetHandler ε conn consulta anioActual).errorTypeOf =
      some TipoError.INVALID_PARAMETERS ∧
    eventosGetHandler ε conn consulta anioActual =
      eventosGetHandler ε conn2 consulta anioActual2 := by
  apply handler_400_de_validacion
  rcases h with ⟨l, hl, hr⟩ | ⟨o, ho, hr⟩ | ⟨m, hm, hr⟩ | ⟨a, hA, hr⟩
  · left
    rw [hl]
    simp only [Option.getD_some, limitInvalido, MAXIMA_CANTIDAD_EVENTOS,
      Bool.or_eq_true, decide_eq_true_eq]
    omega
  · right; left
    rw [ho]
    simp only [Option.getD_some, offsetInvalido, decide_eq_true_eq]
    omega
  · right; right; left
    rw [hm]
    simp only [mesInvalido, Bool.or_eq_true, decide_eq_true_eq]
    omega
  · right; right; right
    rw [hA]
    simp only [anioInvalido, Bool.or_eq_true, decide_eq_true_eq]
    omega

/-- C4 witness: the request `Mes=13` is rejected with the same 400
`INVALID_PARAMETERS` response for two different connectors and clocks. -/
theorem validacion_parametros_400_witness :
    ((∃ l : Int, consulta13.Limit = some (some l) ∧ (l < 1 ∨ 100 < l)) ∨
     (∃ o : Int, consulta13.Offset = some (some o) ∧ o < 0) ∨
     (∃ m : Int, consulta13.Mes = some (some m) ∧ (m < 1 ∨ 12 < m)) ∨
     (∃ a : Int, consulta13.Anio = some (some a) ∧ (a < 1900 ∨ 2100 < a))) ∧
    ((eventosGetHandler Unit (conectorDeBase Unit []) consulta13 0).status = 400 ∧
     (eventosGetHandler Unit (conectorDeBase Unit []) consulta13 0).success = false ∧
     (eventosGetHandler Unit (conectorDeBase Unit []) consulta13 0).errorTypeOf =
       some TipoError.INVALID_PARAMETERS ∧
     eventosGetHandler Unit (conectorDeBase Unit []) consulta13 0 =
       eventosGetHandler Unit (conectorDeBase Unit [docEjemplo 0]) consulta13 1) :=
  ⟨Or.inr (Or.inr (Or.inl ⟨13, rfl, by norm_num⟩)),
   validacion_parametros_400 Unit (conectorDeBase Unit []) (conectorDeBase Unit [docEjemplo 0])
     consulta13 0 1 (Or.inr (Or.inr (Or.inl ⟨13, rfl, by norm_num⟩)))⟩

/-- C5: when the parameters validate and the search finds no events, the
handler answers HTTP 404 whose body still has `success: true`, an empty
`data` list, `total = 0` and the informative not-found message. -/
theorem resultado_vacio_404 (ε : Type) (conn : ConectorMongo ε) (consulta : ConsultaEventos)
    (anioActual : Int) (r : ResultadoBusqueda)
    (hL : limitInvalido (consulta.Limit.getD (some MAXIMA_CANTIDAD_EVENTOS)) = false)
    (hO : offsetInvalido (consulta.Offset.getD (some 0)) = false)
    (hM : mesInvalido consulta.Mes = false)
    (hA : anioInvalido consulta.Anio = false)
    (hB : buscarEventos ε conn (paramsDesdeConsulta consulta) anioActual = Except.ok r)
    (hVacio : r.eventos = []) :
    eventosGetHandler ε conn consulta anioActual =
      RespuestaEventos.exito 404
        (mensajeNoEncontrado (paramsDesdeConsulta consulta).mes
          (paramsDesdeConsulta consulta).anio) [] 0 ∧
    (eventosGetHandler ε conn consulta anioActual).status = 404 ∧
    (eventosGetHandler ε conn consulta anioActual).success = true ∧
    (eventosGetHandler ε conn consulta anioActual).dataOf = some [] ∧
    (eventosGetHandler ε conn consulta anioActual).totalOf = some 0 := by
  have hh : eventosGetHandler ε conn consulta anioActual =
      RespuestaEventos.exito 404
        (mensajeNoEncontrado (paramsDesdeConsulta consulta).mes
          (paramsDesdeConsulta consulta).anio) [] 0 := by
    simp [eventosGetHandler, hL, hO, hM, hA, hB, hVacio]
  refine ⟨hh, ?_, ?_, ?_, ?_⟩ <;> rw [hh] <;> rfl

/-- C5 witness: a parameterless request against an empty collection gets
404 with `success: true`, an empty list and `total = 0`. -/
theorem resultado_vacio_404_witness :
    buscarEventos Unit (conectorDeBase Unit []) (paramsDesdeConsulta consultaVacia) 0 =
      Except.ok ({ eventos := [], total := 0 } : ResultadoBusqueda) ∧
    eventosGetHandler Unit (conectorDeBase Unit []) consultaVacia 0 =
      RespuestaEventos.exito 404 "No se encontraron eventos en el sistema" [] 0 ∧
    (eventosGetHandler Unit (conectorDeBase Unit []) consultaVacia 0).status = 404 ∧
    (eventosGetHandler Unit (conectorDeBase Unit []) consultaVacia 0).success = true ∧
    (eventosGetHandler Unit (conectorDeBase Unit []) consultaVacia 0).dataOf = some [] ∧
    (eventosGetHandler Unit (conectorDeBase Unit []) consultaVacia 0).totalOf = some 0 := by
  have h := resultado_vacio_404 Unit (conectorDeBase Unit []) consultaVacia 0
    ⟨[], 0⟩ rfl rfl rfl rfl rfl rfl
  exact ⟨rfl, h.1, h.2.1, h.2.2.1, h.2.2.2.1, h.2.2.2.2⟩

/-- C8: an error of the underlying count or find operation is re-thrown
unchanged by `buscarEventos` (no retry, no partial result, no
substitution), and the handler maps a search that throws to HTTP 500 with
`success: false`, `errorType: UNKNOWN_ERROR` and the raw error in
`details`. -/
theorem errores_propagados_500 (ε : Type) (conn : ConectorMongo ε)
    (params : BuscarEventosParams) (consulta : ConsultaEventos) (anioActual : Int)
    (e : ε) (t : Option Int)
    (hL : limitInvalido (consulta.Limit.getD (some MAXIMA_CANTIDAD_EVENTOS)) = false)
    (hO : offsetInvalido (consulta.Offset.getD (some 0)) = false)
    (hM : mesInvalido consulta.Mes = false)
    (hA : anioInvalido consulta.Anio = false) :
    (conn.countDocuments (filtroComun params anioActual) RolSistema.Responsable =
        Except.error e →
      buscarEventos ε conn params anioActual = Except.error e) ∧
    (conn.countDocuments (filtroComun params anioActual) RolSistema.Responsable =
        Except.ok t →
      conn.find (filtroComun params anioActual) (opcionesBuscarEventos params)
          RolSistema.Responsable = Except.error e →
      buscarEventos ε conn params anioActual = Except.error e) ∧
    (buscarEventos ε conn (paramsDesdeConsulta consulta) anioActual = Except.error e →
      eventosGetHandler ε conn consulta anioActual =
        RespuestaEventos.error 500 "Error interno del servidor al buscar eventos"
          TipoError.UNKNOWN_ERROR (some e)) := by
  refine ⟨?_, ?_, ?_⟩
  · intro hc
    simp [buscarEventos, hc]
  · intro hc hf
    simp [buscarEventos, hc, hf]
  · intro hb
    simp [eventosGetHandler, hL, hO, hM, hA, hb]

/-- C8 witness: a connector that always throws makes the valid
parameterless request answer 500 `UNKNOWN_ERROR` carrying the raw error. -/
theorem errores_propagados_500_witness :
    (limitInvalido (consultaVacia.Limit.getD (some MAXIMA_CANTIDAD_EVENTOS)) = false ∧
      connFalla.countDocuments
        (filtroComun { mes := none, anio := none, limit := 100, offset := 0 } 0)
        RolSistema.Responsable = Except.error "fallo de conexion") ∧
    buscarEventos String connFalla { mes := none, anio := none, limit := 100, offset := 0 } 0 =
      Except.error "fallo de conexion" ∧
    eventosGetHandler String connFalla consultaVacia 0 =
      RespuestaEventos.error 500 "Error interno del servidor al buscar eventos"
        TipoError.UNKNOWN_ERROR (some "fallo de conexion") := by
  have h := errores_propagados_500 String connFalla
    { mes := none, anio := none, limit := 100, offset := 0 } consultaVacia 0
    "fallo de conexion" none rfl rfl rfl rfl
  refine ⟨⟨rfl, rfl⟩, h.1 rfl, ?_⟩
  exact h.2.2 (h.1 rfl)

/-- C10: a database operation that succeeds with a `null` result is
defaulted — the events list becomes `[]` and the count becomes `0` — in
`buscarEventos`, `buscarEventosPorMes`, `contarEventosPorMes` and
`buscarEventosPorAño`; and every event returned by the unified search is
the four-field transformation of some stored document, with `Id_Evento`
the string form of the database `_id`. -/
theorem nulos_por_defecto (ε : Type) (conn : ConectorMongo ε)
    (params : BuscarEventosParams) (anioActual mes limit offset anio2 : Int)
    (anio : Option Int) (r : ResultadoBusqueda) :
    (conn.countDocuments (filtroComun params anioActual) RolSistema.Responsable =
        Except.ok none →
      conn.find (filtroComun params anioActual) (opcionesBuscarEventos params)
          RolSistema.Responsable = Except.ok none →
      buscarEventos ε conn params anioActual = Except.ok { eventos := [], total := 0 }) ∧
    (buscarEventos ε conn params anioActual = Except.ok r →
      ∀ ev ∈ r.eventos, ∃ d : DocEvento, ev = transformarEvento d ∧
        ev.Id_Evento = toString d._id ∧ ev.Nombre = d.Nombre ∧
        ev.Fecha_Inicio = d.Fecha_Inicio ∧ ev.Fecha_Conclusion = d.Fecha_Conclusion) ∧
    (conn.countDocuments
        (Filtro.rango (inicioMes (anioConsultaDe anio anioActual) mes)
          (finMes (anioConsultaDe anio anioActual) mes)) RolSistema.Responsable =
        Except.ok none →
      conn.find
          (Filtro.rango (inicioMes (anioConsultaDe anio anioActual) mes)
            (finMes (anioConsultaDe anio anioActual) mes))
          { sortFechaInicioAsc := true, skip := some offset, limit := some limit
            proyeccionConId := false } RolSistema.Responsable = Except.ok none →
      buscarEventosPorMes ε conn mes anio anioActual limit offset =
        Except.ok { eventos := [], total := 0 }) ∧
    (conn.countDocuments
        (Filtro.rango (inicioMes (anioConsultaDe anio anioActual) mes)
          (finMes (anioConsultaDe anio anioActual) mes)) RolSistema.Responsable =
        Except.ok none →
      contarEventosPorMes ε conn mes anio anioActual = Except.ok 0) ∧
    (conn.find (Filtro.rango (inicioAnio anio2) (finAnio anio2))
        { sortFechaInicioAsc := true, skip := none, limit := none
          proyeccionConId := false } RolSistema.Directivo = Except.ok none →
      buscarEventosPorAnio ε conn anio2 = Except.ok []) := by
  refine ⟨?_, ?_, ?_, ?_, ?_⟩
  · intro hc hf
    simp [buscarEventos, hc, hf]
  · intro hb ev hev
    cases hc : conn.countDocuments (filtroComun params anioActual) RolSistema.Responsable with
    | error e2 => simp [buscarEventos, hc] at hb
    | ok t =>
      cases hf : conn.find (filtroComun params anioActual) (opcionesBuscarEventos params)
          RolSistema.Responsable with
      | error e2 => simp [buscarEventos, hc, hf] at hb
      | ok raws =>
        simp only [buscarEventos, hc, hf] at hb
        injection hb with hb2
        subst hb2
        obtain ⟨d, hd, rfl⟩ := List.mem_map.mp hev
        exact ⟨d, rfl, rfl, rfl, rfl, rfl⟩
  · intro hc hf
    simp [buscarEventosPorMes, hc, hf]
  · intro hc
    simp [contarEventosPorMes, hc]
  · intro hf
    simp [buscarEventosPorAnio, hf]

/-- C10 witness: against the always-`null` connector every query function
returns its defined default — empty list and zero count. -/
theorem nulos_por_defecto_witness :
    buscarEventos Unit conectorNulo { mes := some 5, anio := some 2024, limit := 10, offset := 0 }
        2024 = Except.ok ({ eventos := [], total := 0 } : ResultadoBusqueda) ∧
    buscarEventosPorMes Unit conectorNulo 5 (some 2024) 2024 10 0 =
      Except.ok ({ eventos := [], total := 0 } : ResultadoBusqueda) ∧
    contarEventosPorMes Unit conectorNulo 5 (some 2024) 2024 = Except.ok 0 ∧
    buscarEventosPorAnio Unit conectorNulo 2024 = Except.ok [] := by
  have h := nulos_por_defecto Unit conectorNulo
    { mes := some 5, anio := some 2024, limit := 10, offset := 0 } 2024 5 10 0 2024
    (some 2024) { eventos := [], total := 0 }
  exact ⟨h.1 rfl rfl, h.2.2.1 rfl rfl, h.2.2.2.1 rfl, h.2.2.2.2 rfl⟩
